import Mathlib

/-!
Shallow embedding of the homework status bot (homework.py, decorators.py).

The bot polls a remote API for homework status updates and forwards status
changes to a Telegram chat.  Python values appearing in API responses are
modelled by the inductive type `PyVal`; exceptions raised by the core
functions are modelled by `Except PyError`; the behaviour of the two
external channels (the HTTP transport used by `get_api_answer` and the
Telegram client used by `send_message`) is passed in explicitly as data,
since the core treats both as black boxes.
-/

namespace HomeworkBot

/-- Model of the Python values that can appear in a decoded JSON payload
(and as the dynamically typed `timestamp` argument): integers, strings,
`None`, lists and string-keyed dictionaries. -/
inductive PyVal where
  | int (n : Int)
  | str (s : String)
  | pyNone
  | list (xs : List PyVal)
  | dict (xs : List (String × PyVal))

/-- Python `type(v).__name__`, used in the error messages of
`check_response` and `parse_status`. -/
def typeName : PyVal → String
  | .int _ => "int"
  | .str _ => "str"
  | .pyNone => "NoneType"
  | .list _ => "list"
  | .dict _ => "dict"

mutual
/-- Python `str(v)` rendering, used where a value is interpolated into an
f-string.  Dictionaries are modelled as association lists with unique keys;
string elements inside containers are rendered without the quotes Python
repr would add, which no theorem below observes. -/
def pyStr : PyVal → String
  | .int n => toString n
  | .str s => s
  | .pyNone => "None"
  | .list xs => "[" ++ pyStrList xs ++ "]"
  | .dict xs => "\x7b" ++ pyStrDict xs ++ "\x7d"

/-- Comma-separated rendering of the elements of a Python list. -/
def pyStrList : List PyVal → String
  | [] => ""
  | [x] => pyStr x
  | x :: xs => pyStr x ++ ", " ++ pyStrList xs

/-- Comma-separated rendering of the entries of a Python dict. -/
def pyStrDict : List (String × PyVal) → String
  | [] => ""
  | [e] => e.1 ++ ": " ++ pyStr e.2
  | e :: xs => e.1 ++ ": " ++ pyStr e.2 ++ ", " ++ pyStrDict xs
end

/-- Lookup of key `k` in a dict body, modelling `k in d` / `d[k]`. -/
def dictGet (d : List (String × PyVal)) (k : String) : Option PyVal :=
  (d.find? (fun e => e.1 == k)).map (fun e => e.2)

/-- Lookup of key `k` in an arbitrary value, `some` exactly when `v` is a
dict containing `k`. -/
def pyGet (v : PyVal) (k : String) : Option PyVal :=
  match v with
  | .dict d => dictGet d k
  | _ => none

/-- Python `v.get(k, default)` on a dict value (line 244 applies it to a
value already known to be a dict). -/
def dictGetD (v : PyVal) (k : String) (default : PyVal) : PyVal :=
  match pyGet v k with
  | some x => x
  | none => default

/-- ENDPOINT constant of homework.py (lines 22..25). -/
def ENDPOINT : String :=
  "https://practicum.yandex.ru/api/user_api/homework_statuses/"

/-- HOMEWORK_VERDICTS constant of homework.py (lines 28..32): the closed
status-to-verdict table. -/
def HOMEWORK_VERDICTS : List (String × String) :=
  [("approved", "Работа проверена: ревьюеру всё понравилось. Ура!"),
   ("reviewing", "Работа взята на проверку ревьюером."),
   ("rejected", "Работа проверена: у ревьюера есть замечания.")]

/-- Exceptions raised by the core functions.  `connectionError` and
`valueError` and `typeError` and `keyError` model the builtin Python
exceptions of the same names; `apiError` models the APIError class that
homework.py imports from the exceptions module of this repository (that
module is not under src/, and per the spec an endpoint error just carries
the status code and target URL in its message). -/
inductive PyError where
  | connectionError (msg : String)
  | apiError (msg : String)
  | typeError (msg : String)
  | keyError (msg : String)
  | valueError (msg : String)

/-- Python `str(error)` for the modelled exceptions: the message for the
ordinary exceptions, and the repr-quoted message for KeyError (Python
renders `str(KeyError(m))` as `repr(m)`, with quotes). -/
def errStr : PyError → String
  | .connectionError m => m
  | .apiError m => m
  | .typeError m => m
  | .keyError m => "\x27" ++ m ++ "\x27"
  | .valueError m => m

/-- Decoded result of one HTTP request: the status code and the decoded
JSON body (`response.json()`). -/
structure HttpResponse where
  status_code : Nat
  body : PyVal

/-- Behaviour of the HTTP transport for the single `requests.get` call a
cycle issues: either the library raises a RequestException, or it returns
a response. -/
inductive NetResult where
  | requestException (msg : String)
  | response (r : HttpResponse)

/-- Embedding of `get_api_answer` (homework.py lines 82..126).  `net` is the
behaviour of the one outbound `requests.get` call; the second component of
the result counts the outbound network calls issued, which is always one:
the function inspects `timestamp` in no way before issuing the request. -/
def get_api_answer (net : NetResult) (timestamp : PyVal) :
    Except PyError PyVal × Nat :=
  match net with
  | .requestException e =>
      (Except.error (PyError.connectionError
        ("Ошибка при запросе к API: " ++ e ++ ". URL: " ++ ENDPOINT
          ++ ", timestamp: " ++ pyStr timestamp)), 1)
  | .response r =>
      if r.status_code ≠ 200 then
        (Except.error (PyError.apiError
          ("Эндпоинт недоступен (status=" ++ toString r.status_code
            ++ "). URL: " ++ ENDPOINT)), 1)
      else
        (Except.ok r.body, 1)

/-- Embedding of `check_response` (homework.py lines 129..169): structural
validation of the decoded response, returning the homeworks list. -/
def check_response (response : PyVal) : Except PyError (List PyVal) :=
  match response with
  | .dict d =>
      match dictGet d "homeworks" with
      | none =>
          Except.error (PyError.keyError
            "В ответе API отсутствует ключ \"homeworks\"")
      | some homeworks =>
          match homeworks with
          | .list xs => Except.ok xs
          | other =>
              Except.error (PyError.typeError
                ("В ответе API homeworks не является списком, получен тип "
                  ++ typeName other))
  | other =>
      Except.error (PyError.typeError
        ("Ответ API не является словарем, получен тип " ++ typeName other))

/-- Embedding of `parse_status` (homework.py lines 172..220): checks the
item shape, rejects unknown statuses, and formats the notification text. -/
def parse_status (homework : PyVal) : Except PyError String :=
  match homework with
  | .dict d =>
      let required_keys := ["homework_name", "status"]
      let missing_keys := required_keys.filter (fun k => (dictGet d k).isNone)
      if missing_keys ≠ [] then
        Except.error (PyError.keyError
          ("В ответе API отсутствуют ключи: "
            ++ String.intercalate ", " missing_keys))
      else
        let name := (dictGet d "homework_name").getD PyVal.pyNone
        let status := (dictGet d "status").getD PyVal.pyNone
        match status with
        | .str s =>
            match (HOMEWORK_VERDICTS.find? (fun e => e.1 == s)) with
            | some e =>
                Except.ok ("Изменился статус проверки работы \""
                  ++ pyStr name ++ "\". " ++ e.2)
            | none =>
                Except.error (PyError.valueError
                  ("Неожиданный статус домашней работы: " ++ pyStr status))
        | _ =>
            Except.error (PyError.valueError
              ("Неожиданный статус домашней работы: " ++ pyStr status))
  | other =>
      Except.error (PyError.typeError
        ("homework должен быть словарем, получен тип " ++ typeName other))

/-- Behaviour of the Telegram client for one outbound
`bot.send_message` attempt: delivery, or one of the two exception kinds
that send_message catches. -/
inductive TelegramResult where
  | sent
  | apiException (msg : String)
  | requestException (msg : String)

/-- Embedding of the undecorated body of `send_message` (homework.py lines
69..79): one outbound Telegram call, True on success, False when the call
raises one of the two caught transport exceptions.  `bot` is the behaviour
of the client for this attempt. -/
def send_message_body (bot : TelegramResult) (message : String) : Bool :=
  match bot with
  | .sent => true
  | .apiException _ => false
  | .requestException _ => false

/-- Result of one call of the decorated send function: the returned Bool,
the closure variable `last_message` after the call, and the number of calls
made to the wrapped function (each of which issues exactly one outbound
Telegram attempt). -/
structure SendResult where
  delivered : Bool
  last : Option String
  outbound : Nat

/-- Embedding of the `prevent_duplicate_messages` decorator
(decorators.py lines 5..24).  The closure variable `last_message` is passed
in and returned explicitly; `outbound` counts the calls forwarded to the
wrapped function. -/
def prevent_duplicate_messages (func : TelegramResult → String → Bool)
    (last_message : Option String) (bot : TelegramResult) (message : String) :
    SendResult :=
  if last_message = some message then
    { delivered := true, last := last_message, outbound := 0 }
  else
    let result := func bot message
    { delivered := result
      last := if result then some message else last_message
      outbound := 1 }

/-- The decorated `send_message` of homework.py (line 58): the send body
wrapped in duplicate suppression. -/
def send_message (last_message : Option String) (bot : TelegramResult)
    (message : String) : SendResult :=
  prevent_duplicate_messages send_message_body last_message bot message

/-- Two consecutive calls of `send_message` with the same text, threading
the `last_message` state from the first call into the second. -/
def send_message_twice (last_message : Option String)
    (bot1 bot2 : TelegramResult) (m : String) : SendResult × SendResult :=
  let r1 := send_message last_message bot1 m
  let r2 := send_message r1.last bot2 m
  (r1, r2)

/-- External behaviour during one poll cycle: what the HTTP transport does
for the cycle's single `requests.get` call, and what the Telegram client
does for the cycle's outbound attempt (`check_homework_status` calls
`send_message` at most once per cycle). -/
structure CycleEnv where
  net : NetResult
  bot : TelegramResult

/-- Observable outcome of one poll cycle: the returned timestamp, the
notifier closure state after the cycle, the list of message texts passed to
`send_message` during the cycle (in order), and the number of outbound
Telegram attempts actually made. -/
structure CycleResult where
  timestamp : PyVal
  last : Option String
  notifyCalls : List String
  outbound : Nat

/-- Embedding of the try block of `check_homework_status` (homework.py
lines 233..244): fetch, validate, the empty check, interpret, notify, and
the cursor decision.  An `Except.error` is an exception escaping the try
block to the handler. -/
def check_homework_status_try (env : CycleEnv) (st : Option String)
    (timestamp : PyVal) : Except PyError CycleResult :=
  match (get_api_answer env.net timestamp).1 with
  | .error e => Except.error e
  | .ok response =>
      match check_response response with
      | .error e => Except.error e
      | .ok [] =>
          Except.ok { timestamp := timestamp, last := st,
                      notifyCalls := [], outbound := 0 }
      | .ok (hw :: _) =>
          match parse_status hw with
          | .error e => Except.error e
          | .ok message =>
              let r := send_message st env.bot message
              if r.delivered then
                Except.ok { timestamp := dictGetD response "current_date" timestamp,
                            last := r.last, notifyCalls := [message],
                            outbound := r.outbound }
              else
                Except.ok { timestamp := timestamp, last := r.last,
                            notifyCalls := [message], outbound := r.outbound }

/-- Embedding of `check_homework_status` (homework.py lines 223..249): the
try block, with the except handler that notifies about the failure
best-effort and holds the cursor. -/
def check_homework_status (env : CycleEnv) (st : Option String)
    (timestamp : PyVal) : CycleResult :=
  match check_homework_status_try env st timestamp with
  | .ok r => r
  | .error e =>
      let msg := "Сбой в работе программы: " ++ errStr e
      let r := send_message st env.bot msg
      { timestamp := timestamp, last := r.last,
        notifyCalls := [msg], outbound := r.outbound }

/-- Embedding of the while loop of `main` (homework.py lines 262..264),
truncated to finitely many cycles: each cycle feeds its returned timestamp
and the notifier state into the next. -/
def runCycles : List CycleEnv → Option String → PyVal → PyVal × Option String
  | [], st, ts => (ts, st)
  | env :: rest, st, ts =>
      let r := check_homework_status env st ts
      runCycles rest r.last r.timestamp

/-- Boolean order test on modelled cursor values: true exactly for two
integers in weak increasing order. -/
def intLE (a b : PyVal) : Bool :=
  match a, b with
  | .int i, .int j => i ≤ j
  | _, _ => false

/-- Sufficient condition on a cycle environment for a non-decreasing cursor
with prior value `n`: when the transport returns a response, the value the
cycle could adopt from its `current_date` field is an integer at least `n`
(trivially so when the field is absent, since the lookup then falls back to
the prior cursor). -/
def suppliedCursorOK (env : CycleEnv) (n : Int) : Bool :=
  match env.net with
  | .requestException _ => true
  | .response r => intLE (.int n) (dictGetD r.body "current_date" (.int n))

/-- Tests whether a fetch result is a raised TypeError. -/
def resultIsTypeError : Except PyError PyVal → Bool
  | .error (.typeError _) => true
  | _ => false

/-- Tests whether a Telegram client behaviour is one of the two transport
exceptions caught by send_message. -/
def isTransportException : TelegramResult → Bool
  | .sent => false
  | .apiException _ => true
  | .requestException _ => true

/-- Reflexivity of the cursor order test on integers. -/
theorem intLE_refl (n : Int) : intLE (.int n) (.int n) = true := by
  simp [intLE]

/-- Case split shared by the cursor theorems: a cycle returns either the
input timestamp unchanged, or the value of `response.get` applied to the
`current_date` key of the body of the HTTP response the transport
returned. -/
theorem cycle_timestamp_cases (env : CycleEnv) (st : Option String)
    (ts : PyVal) :
    (check_homework_status env st ts).timestamp = ts ∨
    ∃ r, env.net = NetResult.response r ∧
      (check_homework_status env st ts).timestamp
        = dictGetD r.body "current_date" ts := by
  obtain ⟨net, bot⟩ := env
  cases net with
  | requestException e => left; rfl
  | response r =>
      by_cases hs : r.status_code ≠ 200
      · left
        simp [check_homework_status, check_homework_status_try,
          get_api_answer, hs]
      · rcases hcr : check_response r.body with e | hws
        · left
          simp [check_homework_status, check_homework_status_try,
            get_api_answer, hs, hcr]
        · cases hws with
          | nil =>
              left
              simp [check_homework_status, check_homework_status_try,
                get_api_answer, hs, hcr]
          | cons hw rest =>
              rcases hp : parse_status hw with e | msg
              · left
                simp [check_homework_status, check_homework_status_try,
                  get_api_answer, hs, hcr, hp]
              · by_cases hd : (send_message st bot msg).delivered = true
                · right
                  refine ⟨r, rfl, ?_⟩
                  simp [check_homework_status, check_homework_status_try,
                    get_api_answer, hs, hcr, hp, hd]
                · left
                  simp [check_homework_status, check_homework_status_try,
                    get_api_answer, hs, hcr, hp, hd]

/-- C1 (counterexample): with a successful fetch whose body has an empty
homeworks list and supplies current_date = 1000, a cycle starting from
cursor 5 returns 5, not the supplied 1000 — the empty branch ignores the
next-cursor field, contradicting the claim that the cursor is advanced to
it when present. -/
theorem c1_counterexample :
    (check_homework_status
      ⟨.response ⟨200, .dict [("homeworks", .list []),
        ("current_date", .int 1000)]⟩, .sent⟩ none (.int 5)).timestamp
      = PyVal.int 5 ∧
    pyGet (.dict [("homeworks", .list []), ("current_date", .int 1000)])
      "current_date" = some (.int 1000) ∧
    PyVal.int 5 ≠ PyVal.int 1000 := by
  refine ⟨rfl, rfl, ?_⟩
  simp

/-- C1 (amended): in a cycle whose fetch succeeds and whose validation
yields an empty items sequence, no notification is attempted and the
cursor is held unchanged — the supplied next-cursor field is ignored in
this branch. -/
theorem c1_empty_holds_cursor (env : CycleEnv) (st : Option String)
    (ts resp : PyVal)
    (hfetch : (get_api_answer env.net ts).1 = Except.ok resp)
    (hval : check_response resp = Except.ok []) :
    check_homework_status env st ts
      = { timestamp := ts, last := st, notifyCalls := [], outbound := 0 } := by
  simp [check_homework_status, check_homework_status_try, hfetch, hval]

/-- C1 (witness): concrete empty-homeworks cycle from cursor 5. -/
theorem c1_empty_holds_cursor_witness :
    check_homework_status
      ⟨.response ⟨200, .dict [("homeworks", .list []),
        ("current_date", .int 1000)]⟩, .sent⟩ (some "m") (.int 5)
      = { timestamp := .int 5, last := some "m",
          notifyCalls := [], outbound := 0 } :=
  c1_empty_holds_cursor _ _ _ _ rfl rfl

/-- C2: when fetch, validate and interpret all succeed but the notify call
reports failure, the cycle returns the input cursor unchanged. -/
theorem c2_notify_failure_holds_cursor (env : CycleEnv) (st : Option String)
    (ts resp : PyVal) (hw : PyVal) (rest : List PyVal) (msg : String)
    (hfetch : (get_api_answer env.net ts).1 = Except.ok resp)
    (hval : check_response resp = Except.ok (hw :: rest))
    (hparse : parse_status hw = Except.ok msg)
    (hsend : (send_message st env.bot msg).delivered = false) :
    (check_homework_status env st ts).timestamp = ts := by
  simp [check_homework_status, check_homework_status_try, hfetch, hval,
    hparse, hsend]

/-- C2 (witness): a concrete cycle in which the Telegram send raises and
the cursor 100 is held even though current_date 1000 was supplied. -/
theorem c2_notify_failure_holds_cursor_witness :
    (check_homework_status
      ⟨.response ⟨200, .dict [("homeworks", .list [.dict
          [("homework_name", .str "x"), ("status", .str "approved")]]),
        ("current_date", .int 1000)]⟩, .apiException "boom"⟩
      none (.int 100)).timestamp = PyVal.int 100 :=
  c2_notify_failure_holds_cursor _ none (.int 100) _ _ [] _ rfl rfl rfl rfl

/-- C3: when fetch, validate and interpret succeed and the notify call
reports success (a real send or the duplicate-suppressed no-op), the cycle
returns the value of the current_date key of the response when that key is
present, and falls back to the input cursor exactly when it is absent. -/
theorem c3_notify_success_advances_cursor (env : CycleEnv)
    (st : Option String) (ts resp : PyVal) (hw : PyVal) (rest : List PyVal)
    (msg : String)
    (hfetch : (get_api_answer env.net ts).1 = Except.ok resp)
    (hval : check_response resp = Except.ok (hw :: rest))
    (hparse : parse_status hw = Except.ok msg)
    (hsend : (send_message st env.bot msg).delivered = true) :
    (∀ v, pyGet resp "current_date" = some v →
        (check_homework_status env st ts).timestamp = v) ∧
    (pyGet resp "current_date" = none →
        (check_homework_status env st ts).timestamp = ts) := by
  constructor
  · intro v hv
    simp [check_homework_status, check_homework_status_try, hfetch, hval,
      hparse, hsend, dictGetD, hv]
  · intro hv
    simp [check_homework_status, check_homework_status_try, hfetch, hval,
      hparse, hsend, dictGetD, hv]

/-- C3 (witness): a successful send advances the cursor from 100 to the
supplied current_date 1000. -/
theorem c3_notify_success_advances_cursor_witness :
    (check_homework_status
      ⟨.response ⟨200, .dict [("homeworks", .list [.dict
          [("homework_name", .str "x"), ("status", .str "approved")]]),
        ("current_date", .int 1000)]⟩, .sent⟩
      none (.int 100)).timestamp = PyVal.int 1000 :=
  (c3_notify_success_advances_cursor
    ⟨.response ⟨200, .dict [("homeworks", .list [.dict
        [("homework_name", .str "x"), ("status", .str "approved")]]),
      ("current_date", .int 1000)]⟩, .sent⟩
    none (.int 100)
    (.dict [("homeworks", .list [.dict
        [("homework_name", .str "x"), ("status", .str "approved")]]),
      ("current_date", .int 1000)])
    (.dict [("homework_name", .str "x"), ("status", .str "approved")]) []
    "Изменился статус проверки работы \"x\". Работа проверена: ревьюеру всё понравилось. Ура!"
    rfl rfl rfl rfl).1 (PyVal.int 1000) rfl

/-- C4 (counterexample): a successful cycle adopts the supplied
current_date 1 verbatim even though the prior cursor is 100, so the cursor
strictly decreases and is not monotonically non-decreasing. -/
theorem c4_counterexample :
    (check_homework_status
      ⟨.response ⟨200, .dict [("homeworks", .list [.dict
          [("homework_name", .str "x"), ("status", .str "approved")]]),
        ("current_date", .int 1)]⟩, .sent⟩
      none (.int 100)).timestamp = PyVal.int 1 ∧ (1 : Int) < 100 :=
  ⟨rfl, by decide⟩

/-- C4 (amended): the cursor after a cycle is greater than or equal to the
integer cursor before it provided the response the transport returned (if
any) supplies, under its current_date key, an integer at least the prior
cursor or no value at all; the code adopts current_date with no
validation, so without this assumption on the remote monotonicity can be
violated. -/
theorem c4_cursor_monotone_of_supplied_ok (env : CycleEnv)
    (st : Option String) (n : Int)
    (h : suppliedCursorOK env n = true) :
    intLE (.int n) (check_homework_status env st (.int n)).timestamp
      = true := by
  rcases cycle_timestamp_cases env st (.int n) with hts | ⟨r, hnet, hts⟩
  · rw [hts]; exact intLE_refl n
  · rw [hts]
    simpa [suppliedCursorOK, hnet] using h

/-- C4 (witness): with supplied current_date 200 and prior cursor 100 the
cycle produces a cursor at least 100. -/
theorem c4_cursor_monotone_of_supplied_ok_witness :
    intLE (.int 100)
      (check_homework_status
        ⟨.response ⟨200, .dict [("homeworks", .list [.dict
            [("homework_name", .str "x"), ("status", .str "approved")]]),
          ("current_date", .int 200)]⟩, .sent⟩
        none (.int 100)).timestamp = true :=
  c4_cursor_monotone_of_supplied_ok _ none 100 (by decide)

/-- C5: every exception escaping the fetch, validate or interpret stages is
absorbed at the per-cycle boundary: the cycle still returns a result whose
cursor equals the input cursor, and exactly one notify call is attempted,
carrying the failure text that embeds the description of the raised error
— for every behaviour of the Telegram client, so a failure of that notify
call itself is not escalated. -/
theorem c5_error_boundary (env : CycleEnv) (st : Option String)
    (ts : PyVal) (e : PyError)
    (h : check_homework_status_try env st ts = Except.error e) :
    (check_homework_status env st ts).timestamp = ts ∧
    (check_homework_status env st ts).notifyCalls
      = ["Сбой в работе программы: " ++ errStr e] := by
  simp [check_homework_status, h]

/-- C5 (witness): a transport failure of the fetch, with a Telegram client
that itself fails; the cursor 7 is held and one notify attempt carries the
error description. -/
theorem c5_error_boundary_witness :
    (check_homework_status
      ⟨.requestException "net down", .apiException "tg down"⟩
      none (.int 7)).timestamp = PyVal.int 7 ∧
    (check_homework_status
      ⟨.requestException "net down", .apiException "tg down"⟩
      none (.int 7)).notifyCalls
      = ["Сбой в работе программы: Ошибка при запросе к API: net down. URL: https://practicum.yandex.ru/api/user_api/homework_statuses/, timestamp: 7"] :=
  c5_error_boundary _ none (.int 7)
    (.connectionError "Ошибка при запросе к API: net down. URL: https://practicum.yandex.ru/api/user_api/homework_statuses/, timestamp: 7")
    rfl

/-- C6 (counterexample): starting from LastSentMessage already equal to the
text, both calls are duplicate-suppressed: the first call succeeds, yet the
two calls together make zero outbound messaging calls, not exactly one. -/
theorem c6_counterexample :
    (send_message_twice (some "a") .sent .sent "a").1.delivered = true ∧
    (send_message_twice (some "a") .sent .sent "a").1.outbound
      + (send_message_twice (some "a") .sent .sent "a").2.outbound ≠ 1 := by
  constructor
  · rfl
  · decide

/-- C6 (amended): for every message text m, calling notify with m twice in
a row starting from a LastSentMessage state different from m, with the
first call succeeding, results in exactly one outbound messaging call;
both calls return success and LastSentMessage equals m after both calls. -/
theorem c6_idempotent_notify (last : Option String)
    (bot1 bot2 : TelegramResult) (m : String)
    (hne : last ≠ some m)
    (hfirst : (send_message last bot1 m).delivered = true) :
    (send_message_twice last bot1 bot2 m).1.outbound
      + (send_message_twice last bot1 bot2 m).2.outbound = 1 ∧
    (send_message_twice last bot1 bot2 m).1.delivered = true ∧
    (send_message_twice last bot1 bot2 m).2.delivered = true ∧
    (send_message_twice last bot1 bot2 m).2.last = some m := by
  have hb : send_message_body bot1 m = true := by
    simpa [send_message, prevent_duplicate_messages, hne] using hfirst
  simp [send_message_twice, send_message, prevent_duplicate_messages,
    hne, hb]

/-- C6 (witness): two sends of the same fresh text from an empty state. -/
theorem c6_idempotent_notify_witness :
    (send_message_twice none .sent .sent "hi").1.outbound
      + (send_message_twice none .sent .sent "hi").2.outbound = 1 ∧
    (send_message_twice none .sent .sent "hi").1.delivered = true ∧
    (send_message_twice none .sent .sent "hi").2.delivered = true ∧
    (send_message_twice none .sent .sent "hi").2.last = some "hi" :=
  c6_idempotent_notify none .sent .sent "hi" (by decide) rfl

/-- C7: a notify call whose outbound attempt raises a caught transport
exception (which requires the call not to be duplicate-suppressed) returns
failure and leaves LastSentMessage unchanged; and whenever a call changes
LastSentMessage at all, that call returned success and set it to the sent
text — so only a confirmed successful send updates it. -/
theorem c7_failed_send_preserves_last (last : Option String)
    (bot : TelegramResult) (m : String) :
    (last ≠ some m → isTransportException bot = true →
      (send_message last bot m).delivered = false ∧
      (send_message last bot m).last = last) ∧
    ((send_message last bot m).last ≠ last →
      (send_message last bot m).delivered = true ∧
      (send_message last bot m).last = some m) := by
  constructor
  · intro hne hexc
    cases bot with
    | sent => simp [isTransportException] at hexc
    | apiException e =>
        simp [send_message, prevent_duplicate_messages, send_message_body,
          hne]
    | requestException e =>
        simp [send_message, prevent_duplicate_messages, send_message_body,
          hne]
  · intro hch
    by_cases hne : last = some m
    · simp [send_message, prevent_duplicate_messages, hne] at hch
    · rcases hb : send_message_body bot m with _ | _
      · simp [send_message, prevent_duplicate_messages, hne, hb] at hch
      · simp [send_message, prevent_duplicate_messages, hne, hb]

/-- C7 (witness): a failing outbound attempt leaves both the result false
and the stored last message untouched. -/
theorem c7_failed_send_preserves_last_witness :
    (send_message (some "a") (.apiException "boom") "b").delivered = false ∧
    (send_message (some "a") (.apiException "boom") "b").last = some "a" :=
  (c7_failed_send_preserves_last (some "a") (.apiException "boom") "b").1
    (by decide) rfl

/-- C8: interpreting the fixed item with homework_name proj1 and status
approved produces exactly the expected Russian notification text. -/
theorem c8_round_trip :
    parse_status (.dict [("homework_name", .str "proj1"),
      ("status", .str "approved")])
      = Except.ok "Изменился статус проверки работы \"proj1\". Работа проверена: ревьюеру всё понравилось. Ура!" :=
  rfl

/-- C9 (counterexample): with a non-numeric cursor (a string) the fetch
still issues its one outbound network call and returns the decoded body —
no type error is raised before (or instead of) the network call. -/
theorem c9_counterexample :
    get_api_answer (.response ⟨200, .dict []⟩) (.str "not a number")
      = (Except.ok (.dict []), 1) ∧
    resultIsTypeError
      (get_api_answer (.response ⟨200, .dict []⟩) (.str "not a number")).1
      = false := by
  exact ⟨rfl, rfl⟩

/-- C9 (amended): the fetch performs no validation of the cursor argument:
for every cursor value, numeric or not, exactly one outbound network call
is issued and the call never raises a type error. -/
theorem c9_fetch_no_type_check (net : NetResult) (ts : PyVal) :
    (get_api_answer net ts).2 = 1 ∧
    resultIsTypeError (get_api_answer net ts).1 = false := by
  cases net with
  | requestException e => exact ⟨rfl, rfl⟩
  | response r =>
      by_cases hs : r.status_code ≠ 200
      · constructor <;> simp [get_api_answer, resultIsTypeError, hs]
      · constructor <;> simp [get_api_answer, resultIsTypeError, hs]

/-- C10: a cycle returns either the input timestamp unchanged, or exactly
the raw value stored under the current_date key of the body the transport
returned — adopted verbatim, whatever its type or magnitude. -/
theorem c10_cursor_verbatim (env : CycleEnv) (st : Option String)
    (ts : PyVal) :
    (check_homework_status env st ts).timestamp = ts ∨
    ∃ r, env.net = NetResult.response r ∧
      pyGet r.body "current_date"
        = some (check_homework_status env st ts).timestamp := by
  rcases cycle_timestamp_cases env st ts with h | ⟨r, hnet, h⟩
  · left; exact h
  · rcases hv : pyGet r.body "current_date" with _ | v
    · left
      rw [h]
      simp [dictGetD, hv]
    · right
      refine ⟨r, hnet, ?_⟩
      rw [h]
      simp [dictGetD, hv]

end HomeworkBot
